import Mathlib

/-!
Verification of `scripts/convert_yolo_model.py`, the YOLO → TFLite
conversion pipeline of the plate-ocr-android repository.

The script is a sequential four-stage pipeline (export to ONNX, convert to
TFLite, validate, optionally copy into the Android assets tree).  Every
interesting action is a call into an external library or subprocess, so we
embed the script over an oracle `World` that records, for one invocation,
what each external call would do (the exception it raises or the value it
returns).  The filesystem is a small explicit state (`FS`), and every stage
additionally returns the trace of external calls it performed (`Event`) and
the lines it printed (`List String`).
-/

namespace PlateOCR

/-- A filesystem snapshot: files as (path, contents) pairs (later entries
shadowed by earlier ones) plus the set of directories that exist. -/
structure FS where
  files : List (String × String)
  dirs : List String
deriving DecidableEq, Repr

/-- Read a file's contents (`None` if the path names no file). -/
def fsRead (fs : FS) (p : String) : Option String :=
  fs.files.lookup p

/-- Create/overwrite the file at `p` with contents `c`. -/
def fsWrite (fs : FS) (p c : String) : FS :=
  { fs with files := (p, c) :: fs.files.filter (fun q => q.1 ≠ p) }

/-- `os.path.exists`: true for an existing file or an existing directory. -/
def os_path_exists (fs : FS) (p : String) : Bool :=
  (fsRead fs p).isSome || fs.dirs.contains p

/-- `Path(a) / b`: join two path components with a slash. -/
def pathConcat (a b : String) : String :=
  a ++ "/" ++ b

/-- `os.path.dirname`: everything before the last slash-separated component. -/
def os_path_dirname (p : String) : String :=
  String.intercalate "/" (p.splitOn "/").dropLast

/-- All slash-prefixes of a path, the path itself included: the directories
`Path.mkdir(parents=True)` brings into existence. -/
def pathPrefixes (p : String) : List String :=
  ((p.splitOn "/").inits.filter (fun l => l ≠ [])).map (String.intercalate "/")

/-- Insert a directory into the directory set if it is not already there. -/
def insertDir (ds : List String) (d : String) : List String :=
  if d ∈ ds then ds else ds ++ [d]

/-- `Path(p).mkdir(parents=True, exist_ok=True)`: create the missing
ancestor directories, then the directory itself; directories that already
exist are left alone and cause no error. -/
def mkdirParents (fs : FS) (p : String) : FS :=
  { fs with dirs := insertDir ((pathPrefixes p).foldl insertDir fs.dirs) p }

/-- `shutil.copy src dst`: read the contents of `src` and write them to
`dst`, overwriting anything already at `dst`; raises (error) when `src`
does not exist. -/
def shutil_copy (fs : FS) (src dst : String) : Except String FS :=
  match fsRead fs src with
  | none => Except.error ("No such file or directory: " ++ src)
  | some c => Except.ok (fsWrite fs dst c)

/-- One external call performed by the script. -/
inductive Event where
  /-- `YOLO(weights)` followed by `model.export(format=onnx, imgsz=640)`. -/
  | exportCall (weights : String)
  /-- The `python -m tf2onnx.convert` subprocess on the given paths. -/
  | convertCall (onnx_path tflite_path : String)
  /-- `tf.lite.Interpreter(model_path=path)` plus tensor allocation. -/
  | validateLoad (tflite_path : String)
  /-- Entry into `copy_to_android_assets` for the given project root. -/
  | installCall (project : String)
  /-- The `shutil.copy` from the output file into the assets tree. -/
  | copyCall (src dst : String)
deriving DecidableEq, Repr

/-- `sys.exit(code)` as observed from inside a stage function. -/
inductive ExitCall where
  | exit (code : Nat)
deriving DecidableEq, Repr

/-- Oracle for one invocation: what each external call would do if made.
`Except.error`/`some` fields carry the message of the exception the call
would raise. -/
structure World where
  /-- `YOLO(weights)` + `model.export`: exception message, or the ONNX path
  the library returns (chosen by the library, not by the script). -/
  exportOutcome : Except String String
  /-- Exception raised by `subprocess.run` itself, if any. -/
  convertRaises : Option String
  /-- Exit status of the tf2onnx subprocess (when it ran). -/
  convertReturncode : Int
  /-- Captured stderr of the tf2onnx subprocess. -/
  convertStderr : String
  /-- Whether the subprocess left a file at the requested tflite path. -/
  convertCreatesOutput : Bool
  /-- Contents of that file when it was created. -/
  convertOutputContents : String
  /-- Exception from `tf.lite.Interpreter`, `allocate_tensors` or the
  `get_*_details` calls, if any. -/
  validateRaises : Option String
  /-- The interpreter's input tensor descriptors (rendered opaquely). -/
  inputDetails : List String
  /-- The interpreter's output tensor descriptors. -/
  outputDetails : List String
  /-- Whether `mkdir` in the installer raises an OSError (e.g. a read-only
  filesystem); the exception is raised before any mutation happens. -/
  copyOsError : Bool
deriving Repr

/-- `export_to_onnx(weights_path, output_dir)`: delegates to the external
loader/exporter; on any exception it prints the message and calls
`sys.exit(1)`; otherwise it returns the path the library chose.  The
`output_dir` parameter appears in the signature but is never read in the
body, exactly as in the source. -/
def export_to_onnx (w : World) (weights_path output_dir : String) :
    Except ExitCall String × List Event × List String :=
  match w.exportOutcome with
  | Except.ok onnx_path =>
      (Except.ok onnx_path, [Event.exportCall weights_path],
        ["[1/3] Exporting " ++ weights_path ++ " to ONNX...",
         "✓ ONNX export complete: " ++ onnx_path])
  | Except.error e =>
      (Except.error (ExitCall.exit 1), [Event.exportCall weights_path],
        ["[1/3] Exporting " ++ weights_path ++ " to ONNX...",
         "✗ ONNX export failed: " ++ e])

/-- `convert_to_tflite(onnx_path, tflite_path)`: runs the tf2onnx
subprocess; returns `false` on a non-zero exit status (printing the
captured stderr), then checks `os.path.exists(tflite_path)` and returns
`true` only if the file is there; any exception is caught and yields
`false`.  (The printed file-size readout is abbreviated to the path.) -/
def convert_to_tflite (w : World) (fs : FS) (onnx_path tflite_path : String) :
    Bool × FS × List Event × List String :=
  match w.convertRaises with
  | some e =>
      (false, fs, [Event.convertCall onnx_path tflite_path],
        ["[2/3] Converting ONNX to TensorFlow Lite...",
         "✗ TFLite conversion failed: " ++ e])
  | none =>
      let fs1 := if w.convertCreatesOutput
                 then fsWrite fs tflite_path w.convertOutputContents
                 else fs
      if w.convertReturncode ≠ 0 then
        (false, fs1, [Event.convertCall onnx_path tflite_path],
          ["[2/3] Converting ONNX to TensorFlow Lite...",
           "✗ TFLite conversion failed:", w.convertStderr])
      else if os_path_exists fs1 tflite_path then
        (true, fs1, [Event.convertCall onnx_path tflite_path],
          ["[2/3] Converting ONNX to TensorFlow Lite...",
           "✓ TFLite conversion complete: " ++ tflite_path])
      else
        (false, fs1, [Event.convertCall onnx_path tflite_path],
          ["[2/3] Converting ONNX to TensorFlow Lite...",
           "✗ TFLite file not created"])

/-- `validate_tflite(tflite_path)`: loads the binary through the
interpreter, allocates tensors and reads the tensor descriptors; accessing
`input_details[0]` raises IndexError when the descriptor list is empty; any
exception is caught and reported as `false`. -/
def validate_tflite (w : World) (tflite_path : String) :
    Bool × List Event × List String :=
  match w.validateRaises with
  | some e =>
      (false, [Event.validateLoad tflite_path],
        ["[3/3] Validating TFLite model...",
         "✗ Model validation failed: " ++ e])
  | none =>
      match w.inputDetails.head? with
      | none =>
          (false, [Event.validateLoad tflite_path],
            ["[3/3] Validating TFLite model...",
             "✗ Model validation failed: list index out of range"])
      | some d =>
          (true, [Event.validateLoad tflite_path],
            ["[3/3] Validating TFLite model...",
             "✓ Model validated successfully!",
             "  Input: " ++ d,
             "  Number of outputs: " ++ toString w.outputDetails.length])

/-- The fixed assets directory under a project root:
`<project>/app/src/main/assets`. -/
def assetsSubdir (project : String) : String :=
  pathConcat (pathConcat (pathConcat (pathConcat project "app") "src") "main") "assets"

/-- The fixed destination of the installer:
`<project>/app/src/main/assets/yolo_plate_detector.tflite`. -/
def assetsTarget (project : String) : String :=
  pathConcat (assetsSubdir project) "yolo_plate_detector.tflite"

/-- `copy_to_android_assets(tflite_path, android_project_path)`: makes the
fixed nested assets directory (parents created, existing directories
tolerated), then copies the binary to the hardcoded filename inside it;
any exception is caught and reported as `false`. -/
def copy_to_android_assets (w : World) (fs : FS)
    (tflite_path android_project_path : String) :
    Bool × FS × List Event × List String :=
  if w.copyOsError then
    (false, fs, [Event.installCall android_project_path],
      ["✗ Failed to copy to Android assets: OSError"])
  else
    let fs1 := mkdirParents fs (assetsSubdir android_project_path)
    let target_path := assetsTarget android_project_path
    match shutil_copy fs1 tflite_path target_path with
    | Except.error e =>
        (false, fs1,
          [Event.installCall android_project_path,
           Event.copyCall tflite_path target_path],
          ["✗ Failed to copy to Android assets: " ++ e])
    | Except.ok fs2 =>
        (true, fs2,
          [Event.installCall android_project_path,
           Event.copyCall tflite_path target_path],
          ["✓ Copied to Android assets: " ++ target_path])

/-- The parsed command line: `--weights` and `--output` are required,
`--android-project` is optional. -/
structure Args where
  weights : String
  output : String
  android_project : Option String
deriving DecidableEq, Repr

/-- The observable outcome of one invocation of the script. -/
structure RunResult where
  exitCode : Nat
  events : List Event
  fs : FS
  log : List String
deriving DecidableEq, Repr

/-- `main()`: checks that the weights file exists, then runs
export → convert → validate in order, exiting 1 on the first failure;
finally, if `--android-project` was given, copies into the assets tree
(its result ignored) and falls off the end of `main` (exit 0).
(The decorative banner prints are omitted from the log.) -/
def main (w : World) (fs : FS) (args : Args) : RunResult :=
  if os_path_exists fs args.weights = false then
    { exitCode := 1, events := [], fs := fs,
      log := ["Error: Weights file not found: " ++ args.weights] }
  else
    let exp := export_to_onnx w args.weights (os_path_dirname args.output)
    match exp.1 with
    | Except.error (ExitCall.exit c) =>
        { exitCode := c, events := exp.2.1, fs := fs, log := exp.2.2 }
    | Except.ok onnx_path =>
        let conv := convert_to_tflite w fs onnx_path args.output
        if conv.1 = false then
          { exitCode := 1, events := exp.2.1 ++ conv.2.2.1, fs := conv.2.1,
            log := exp.2.2 ++ conv.2.2.2 }
        else
          let val := validate_tflite w args.output
          if val.1 = false then
            { exitCode := 1, events := exp.2.1 ++ conv.2.2.1 ++ val.2.1,
              fs := conv.2.1, log := exp.2.2 ++ conv.2.2.2 ++ val.2.2 }
          else
            match args.android_project with
            | none =>
                { exitCode := 0, events := exp.2.1 ++ conv.2.2.1 ++ val.2.1,
                  fs := conv.2.1,
                  log := exp.2.2 ++ conv.2.2.2 ++ val.2.2 ++
                    ["✓ Conversion complete!"] }
            | some proj =>
                let cp := copy_to_android_assets w conv.2.1 args.output proj
                { exitCode := 0,
                  events := exp.2.1 ++ conv.2.2.1 ++ val.2.1 ++ cp.2.2.1,
                  fs := cp.2.1,
                  log := exp.2.2 ++ conv.2.2.2 ++ val.2.2 ++ cp.2.2.2 ++
                    ["✓ Conversion complete!"] }

/-- Does an event mark entry into the asset installer? -/
def isInstallCall : Event → Bool
  | Event.installCall _ => true
  | _ => false

/-! ## Helper lemmas -/

lemma mem_insertDir_self (ds : List String) (d : String) : d ∈ insertDir ds d := by
  unfold insertDir
  split
  · assumption
  · exact List.mem_append_right _ (List.mem_singleton.mpr rfl)

lemma fsRead_mkdirParents (fs : FS) (p q : String) :
    fsRead (mkdirParents fs p) q = fsRead fs q := rfl

lemma fsRead_fsWrite_self (fs : FS) (p c : String) :
    fsRead (fsWrite fs p c) p = some c := by
  simp [fsRead, fsWrite, List.lookup]

lemma dirs_fsWrite (fs : FS) (p c : String) : (fsWrite fs p c).dirs = fs.dirs := rfl

lemma export_events (w : World) (weights_path output_dir : String) :
    (export_to_onnx w weights_path output_dir).2.1 = [Event.exportCall weights_path] := by
  unfold export_to_onnx
  cases w.exportOutcome <;> rfl

lemma convert_events (w : World) (fs : FS) (onnx_path tflite_path : String) :
    (convert_to_tflite w fs onnx_path tflite_path).2.2.1
      = [Event.convertCall onnx_path tflite_path] := by
  unfold convert_to_tflite
  cases w.convertRaises
  · simp only
    repeat' split
    all_goals rfl
  · rfl

lemma validate_events (w : World) (tflite_path : String) :
    (validate_tflite w tflite_path).2.1 = [Event.validateLoad tflite_path] := by
  unfold validate_tflite
  cases w.validateRaises
  · cases w.inputDetails <;> rfl
  · rfl

/-! ## Sample inputs for the witnesses -/

/-- A world in which every external call behaves. -/
def wOk : World :=
  { exportOutcome := Except.ok "best.onnx"
    convertRaises := none
    convertReturncode := 0
    convertStderr := ""
    convertCreatesOutput := true
    convertOutputContents := "TFL3-bytes"
    validateRaises := none
    inputDetails := ["float32 1x640x640x3"]
    outputDetails := ["out0"]
    copyOsError := false }

/-- A filesystem holding just the weights file. -/
def fsW : FS := { files := [("best.pt", "pt-bytes")], dirs := [] }

/-- The usual command line, without a project path. -/
def argsNoProj : Args := { weights := "best.pt", output := "model.tflite", android_project := none }

/-- The usual command line, with a project path. -/
def argsProj : Args :=
  { weights := "best.pt", output := "model.tflite", android_project := some "droid" }

/-! ## Claims -/

/-- Claim C2: The converter stage returns success (true) iff the external
conversion subprocess ran without raising, exited with status zero, and a
file exists at the requested output path afterward; in particular a zero
exit code with a missing output file is reported as failure. -/
theorem convert_success_iff (w : World) (fs : FS) (onnx_path tflite_path : String) :
    (convert_to_tflite w fs onnx_path tflite_path).1 = true ↔
      (w.convertRaises = none ∧ w.convertReturncode = 0 ∧
        os_path_exists (convert_to_tflite w fs onnx_path tflite_path).2.1 tflite_path
          = true) := by
  unfold convert_to_tflite
  cases hr : w.convertRaises
  · simp only
    by_cases hrc : w.convertReturncode = 0
    · by_cases hex : os_path_exists
          (if w.convertCreatesOutput = true
           then fsWrite fs tflite_path w.convertOutputContents else fs) tflite_path = true
      · simp [hrc, hex]
      · simp [hrc, hex]
    · simp [hrc]
  · simp

/-- Claim C9: The exporter ignores its output-directory argument: for a fixed
weights path and fixed external behavior, two invocations with different
output directories perform the same external call and return the same
interchange path (the entire observable result coincides). -/
theorem export_ignores_output_dir (w : World) (weights_path d1 d2 : String) :
    export_to_onnx w weights_path d1 = export_to_onnx w weights_path d2 := rfl

/-- Claim C4: If the `--weights` path does not exist on disk, the process
exits non-zero having performed no external call at all (no export, no
conversion subprocess, nothing else). -/
theorem missing_weights_exits_silently (w : World) (fs : FS) (args : Args)
    (h : os_path_exists fs args.weights = false) :
    (main w fs args).exitCode ≠ 0 ∧ (main w fs args).events = [] := by
  unfold main
  rw [h]
  simp

/-- Witness for C4: a concrete run with an absent weights file. -/
theorem missing_weights_exits_silently_witness :
    (main wOk { files := [], dirs := [] } argsNoProj).exitCode ≠ 0 ∧
    (main wOk { files := [], dirs := [] } argsNoProj).events = [] :=
  missing_weights_exits_silently wOk { files := [], dirs := [] } argsNoProj (by rfl)

/-- Claim C5: Every exception of the external load/export call is caught and
reported with the underlying message, and terminates the process with exit
status 1: the stage's result is the `sys.exit(1)` call (never a failure
value handed to the caller), the log carries the message, and the whole run
stops right there — one export call, nothing after it, exit code 1. -/
theorem export_exception_exits (w : World) (fs : FS) (args : Args) (msg : String)
    (hw : os_path_exists fs args.weights = true)
    (hexc : w.exportOutcome = Except.error msg) :
    (export_to_onnx w args.weights (os_path_dirname args.output)).1
        = Except.error (ExitCall.exit 1) ∧
    ("✗ ONNX export failed: " ++ msg) ∈
        (export_to_onnx w args.weights (os_path_dirname args.output)).2.2 ∧
    (main w fs args).exitCode = 1 ∧
    (main w fs args).events = [Event.exportCall args.weights] := by
  have h1 : (export_to_onnx w args.weights (os_path_dirname args.output)).1
      = Except.error (ExitCall.exit 1) := by
    unfold export_to_onnx
    rw [hexc]
  have h2 : ("✗ ONNX export failed: " ++ msg) ∈
      (export_to_onnx w args.weights (os_path_dirname args.output)).2.2 := by
    unfold export_to_onnx
    rw [hexc]
    simp
  refine ⟨h1, h2, ?_, ?_⟩ <;>
  · unfold main
    rw [hw]
    simp only [Bool.true_eq_false, if_false, h1, export_events]

/-- Witness for C5: a concrete run whose export call raises. -/
theorem export_exception_exits_witness :
    (export_to_onnx { wOk with exportOutcome := Except.error "bad checkpoint" }
        "best.pt" (os_path_dirname "model.tflite")).1
      = Except.error (ExitCall.exit 1) ∧
    ("✗ ONNX export failed: " ++ "bad checkpoint") ∈
      (export_to_onnx { wOk with exportOutcome := Except.error "bad checkpoint" }
        "best.pt" (os_path_dirname "model.tflite")).2.2 ∧
    (main { wOk with exportOutcome := Except.error "bad checkpoint" } fsW argsNoProj).exitCode
      = 1 ∧
    (main { wOk with exportOutcome := Except.error "bad checkpoint" } fsW argsNoProj).events
      = [Event.exportCall "best.pt"] :=
  export_exception_exits { wOk with exportOutcome := Except.error "bad checkpoint" }
    fsW argsNoProj "bad checkpoint" (by rfl) (by rfl)

lemma export_ok_fst (w : World) (weights_path output_dir p : String)
    (h : w.exportOutcome = Except.ok p) :
    (export_to_onnx w weights_path output_dir).1 = Except.ok p := by
  unfold export_to_onnx
  rw [h]

lemma validate_false_of (w : World) (tflite_path : String)
    (h : w.validateRaises ≠ none ∨ w.inputDetails = []) :
    (validate_tflite w tflite_path).1 = false := by
  unfold validate_tflite
  cases hr : w.validateRaises
  · rcases h with h | h
    · exact absurd hr h
    · simp [h]
  · rfl

lemma install_event_present (w : World) (fs : FS) (tflite_path proj : String) :
    (copy_to_android_assets w fs tflite_path proj).2.2.1.any isInstallCall = true := by
  unfold copy_to_android_assets
  split
  · rfl
  · simp only
    split <;> rfl

/-- Claim C1: Whenever stages 1-3 (export, conversion, validation) all
succeed, the run exits 0 — whether or not a project path was given and
whether or not the asset copy succeeded — and the installer is entered
exactly when the optional project path is present. -/
theorem pipeline_success_exit_zero (w : World) (fs : FS) (args : Args) (p : String)
    (hw : os_path_exists fs args.weights = true)
    (hexp : w.exportOutcome = Except.ok p)
    (hconv : (convert_to_tflite w fs p args.output).1 = true)
    (hval : (validate_tflite w args.output).1 = true) :
    (main w fs args).exitCode = 0 ∧
    (main w fs args).events.any isInstallCall = args.android_project.isSome := by
  have he := export_ok_fst w args.weights (os_path_dirname args.output) p hexp
  unfold main
  rw [hw]
  simp only [Bool.true_eq_false, if_false, he, hconv, hval]
  cases hap : args.android_project
  · simp [export_events, convert_events, validate_events, isInstallCall]
  · simp [export_events, convert_events, validate_events, isInstallCall,
      install_event_present]

/-- Witness for C1: a concrete successful run with a project path whose
asset copy fails (read-only filesystem) still exits 0 and entered the
installer. -/
theorem pipeline_success_exit_zero_witness :
    (main { wOk with copyOsError := true } fsW argsProj).exitCode = 0 ∧
    (main { wOk with copyOsError := true } fsW argsProj).events.any isInstallCall
      = argsProj.android_project.isSome :=
  pipeline_success_exit_zero { wOk with copyOsError := true } fsW argsProj
    "best.onnx" (by rfl) (by rfl) (by rfl) (by rfl)

/-- Claim C3: The stages run in the order exporter, converter, validator,
installer, and the pipeline is fail-fast: a converter failure means a
non-zero exit with no validator (and no installer) call, a validator
failure means a non-zero exit with no installer call, and on full success
the trace is exactly export, convert, validate followed by the installer's
own calls. -/
theorem stages_in_order_fail_fast (w : World) (fs : FS) (args : Args) (p proj : String)
    (hw : os_path_exists fs args.weights = true)
    (hexp : w.exportOutcome = Except.ok p) :
    ((convert_to_tflite w fs p args.output).1 = false →
      (main w fs args).exitCode ≠ 0 ∧
      (main w fs args).events
        = [Event.exportCall args.weights, Event.convertCall p args.output]) ∧
    ((convert_to_tflite w fs p args.output).1 = true →
     (validate_tflite w args.output).1 = false →
      (main w fs args).exitCode ≠ 0 ∧
      (main w fs args).events
        = [Event.exportCall args.weights, Event.convertCall p args.output,
           Event.validateLoad args.output]) ∧
    ((convert_to_tflite w fs p args.output).1 = true →
     (validate_tflite w args.output).1 = true →
     args.android_project = some proj →
      (main w fs args).events
        = [Event.exportCall args.weights, Event.convertCall p args.output,
           Event.validateLoad args.output] ++
          (copy_to_android_assets w (convert_to_tflite w fs p args.output).2.1
            args.output proj).2.2.1) := by
  have he := export_ok_fst w args.weights (os_path_dirname args.output) p hexp
  refine ⟨?_, ?_, ?_⟩
  · intro hc
    unfold main
    rw [hw]
    simp [Bool.true_eq_false, if_false, he, hc, export_events, convert_events]
  · intro hc hv
    unfold main
    rw [hw]
    simp [Bool.true_eq_false, if_false, he, hc, hv, export_events, convert_events,
      validate_events]
  · intro hc hv hap
    unfold main
    rw [hw]
    simp [Bool.true_eq_false, if_false, he, hc, hv, hap, export_events, convert_events,
      validate_events]

/-- Witness for C3: a concrete run whose conversion subprocess exits 1
stops after the converter with a non-zero exit. -/
theorem stages_in_order_fail_fast_witness :
    (main { wOk with convertReturncode := 1 } fsW argsNoProj).exitCode ≠ 0 ∧
    (main { wOk with convertReturncode := 1 } fsW argsNoProj).events
      = [Event.exportCall "best.pt", Event.convertCall "best.onnx" "model.tflite"] :=
  (stages_in_order_fail_fast { wOk with convertReturncode := 1 } fsW argsNoProj
    "best.onnx" "droid" (by rfl) (by rfl)).1 (by rfl)

/-- Claim C6: The validator is a total boolean function: every exception —
from interpreter load, tensor allocation, metadata reads, or indexing into
an empty input-descriptor list — is caught and reported as `false`, and a
`false` result makes the caller exit non-zero. -/
theorem validate_catches_all_and_is_fatal (w : World) (fs : FS) (args : Args) (p : String)
    (hw : os_path_exists fs args.weights = true)
    (hexp : w.exportOutcome = Except.ok p)
    (hconv : (convert_to_tflite w fs p args.output).1 = true)
    (hbad : w.validateRaises ≠ none ∨ w.inputDetails = []) :
    (validate_tflite w args.output).1 = false ∧
    (main w fs args).exitCode ≠ 0 := by
  have hv := validate_false_of w args.output hbad
  refine ⟨hv, ?_⟩
  have he := export_ok_fst w args.weights (os_path_dirname args.output) p hexp
  unfold main
  rw [hw]
  simp [Bool.true_eq_false, if_false, he, hconv, hv]

/-- Witness for C6: a concrete run whose interpreter load raises makes the
validator return false and the run exit non-zero. -/
theorem validate_catches_all_and_is_fatal_witness :
    (validate_tflite { wOk with validateRaises := some "bad flatbuffer" }
      argsNoProj.output).1 = false ∧
    (main { wOk with validateRaises := some "bad flatbuffer" } fsW argsNoProj).exitCode
      ≠ 0 :=
  validate_catches_all_and_is_fatal { wOk with validateRaises := some "bad flatbuffer" }
    fsW argsNoProj "best.onnx" (by rfl) (by rfl) (by rfl)
    (Or.inl (by simp))

/-- Claim C8: No existence check guards the exporter's result: even when no
file exists at the path the exporter returned, that path is passed straight
to the converter, whose subprocess is invoked on it. -/
theorem export_path_not_rechecked (w : World) (fs : FS) (args : Args) (p : String)
    (hw : os_path_exists fs args.weights = true)
    (hexp : w.exportOutcome = Except.ok p)
    (hmiss : os_path_exists fs p = false) :
    Event.convertCall p args.output ∈ (main w fs args).events := by
  have he := export_ok_fst w args.weights (os_path_dirname args.output) p hexp
  unfold main
  rw [hw]
  by_cases hc : (convert_to_tflite w fs p args.output).1 = false
  · simp [Bool.true_eq_false, if_false, he, hc, export_events, convert_events]
  · rw [Bool.not_eq_false] at hc
    by_cases hv : (validate_tflite w args.output).1 = false
    · simp [Bool.true_eq_false, if_false, he, hc, hv, export_events, convert_events,
        validate_events]
    · rw [Bool.not_eq_false] at hv
      cases hap : args.android_project <;>
        simp [Bool.true_eq_false, if_false, he, hc, hv, export_events, convert_events,
          validate_events]

/-- Witness for C8: with no file at the exporter's returned path, the
conversion subprocess is still invoked on that path. -/
theorem export_path_not_rechecked_witness :
    Event.convertCall "best.onnx" "model.tflite" ∈ (main wOk fsW argsNoProj).events :=
  export_path_not_rechecked wOk fsW argsNoProj "best.onnx" (by rfl) (by rfl) (by rfl)

/-- Claim C7: The installer creates the nested `<project>/app/src/main/assets`
directory if absent (succeeding also when it already exists, since the
filesystem here is arbitrary) and copies the validated binary to the
hardcoded filename `yolo_plate_detector.tflite` inside it; destination
filename and sub-path are fixed functions of the project root alone. -/
theorem installer_creates_dir_and_copies (w : World) (fs : FS)
    (tflite_path android_project_path c : String)
    (hos : w.copyOsError = false)
    (hsrc : fsRead fs tflite_path = some c) :
    (copy_to_android_assets w fs tflite_path android_project_path).1 = true ∧
    assetsSubdir android_project_path ∈
      (copy_to_android_assets w fs tflite_path android_project_path).2.1.dirs ∧
    fsRead (copy_to_android_assets w fs tflite_path android_project_path).2.1
      (assetsTarget android_project_path) = some c := by
  have h1 : shutil_copy (mkdirParents fs (assetsSubdir android_project_path))
      tflite_path (assetsTarget android_project_path)
      = Except.ok (fsWrite (mkdirParents fs (assetsSubdir android_project_path))
          (assetsTarget android_project_path) c) := by
    unfold shutil_copy
    rw [fsRead_mkdirParents, hsrc]
  unfold copy_to_android_assets
  rw [hos]
  simp only [Bool.false_eq_true, if_false, h1]
  refine ⟨trivial, ?_, ?_⟩
  · rw [dirs_fsWrite]
    exact mem_insertDir_self _ _
  · exact fsRead_fsWrite_self _ _ _

/-- Witness for C7: a concrete install into a project tree where the
assets directory already exists still succeeds and lands the file at the
fixed target. -/
theorem installer_creates_dir_and_copies_witness :
    (copy_to_android_assets wOk
      { files := [("model.tflite", "TFL3-bytes")], dirs := [assetsSubdir "droid"] }
      "model.tflite" "droid").1 = true ∧
    assetsSubdir "droid" ∈
      (copy_to_android_assets wOk
        { files := [("model.tflite", "TFL3-bytes")], dirs := [assetsSubdir "droid"] }
        "model.tflite" "droid").2.1.dirs ∧
    fsRead (copy_to_android_assets wOk
        { files := [("model.tflite", "TFL3-bytes")], dirs := [assetsSubdir "droid"] }
        "model.tflite" "droid").2.1 (assetsTarget "droid") = some "TFL3-bytes" :=
  installer_creates_dir_and_copies wOk
    { files := [("model.tflite", "TFL3-bytes")], dirs := [assetsSubdir "droid"] }
    "model.tflite" "droid" "TFL3-bytes" (by rfl) (by rfl)

/-- Claim C10: A file already present at the fixed target path is silently
overwritten: the installer reports success, logs the normal success line,
and afterwards the target holds the newly validated binary's contents, not
the old ones. -/
theorem installer_overwrites_existing_target (w : World) (fs : FS)
    (tflite_path android_project_path c old : String)
    (hos : w.copyOsError = false)
    (hsrc : fsRead fs tflite_path = some c)
    (hold : fsRead fs (assetsTarget android_project_path) = some old) :
    (copy_to_android_assets w fs tflite_path android_project_path).1 = true ∧
    fsRead (copy_to_android_assets w fs tflite_path android_project_path).2.1
      (assetsTarget android_project_path) = some c ∧
    ("✓ Copied to Android assets: " ++ assetsTarget android_project_path) ∈
      (copy_to_android_assets w fs tflite_path android_project_path).2.2.2 := by
  have h1 : shutil_copy (mkdirParents fs (assetsSubdir android_project_path))
      tflite_path (assetsTarget android_project_path)
      = Except.ok (fsWrite (mkdirParents fs (assetsSubdir android_project_path))
          (assetsTarget android_project_path) c) := by
    unfold shutil_copy
    rw [fsRead_mkdirParents, hsrc]
  unfold copy_to_android_assets
  rw [hos]
  simp only [Bool.false_eq_true, if_false, h1]
  exact ⟨trivial, fsRead_fsWrite_self _ _ _, by simp⟩

/-- Witness for C10: an old file at the target is replaced by the new
contents and the installer reports success. -/
theorem installer_overwrites_existing_target_witness :
    (copy_to_android_assets wOk
      { files := [("model.tflite", "NEW"), (assetsTarget "droid", "OLD")],
        dirs := [assetsSubdir "droid"] } "model.tflite" "droid").1 = true ∧
    fsRead (copy_to_android_assets wOk
      { files := [("model.tflite", "NEW"), (assetsTarget "droid", "OLD")],
        dirs := [assetsSubdir "droid"] } "model.tflite" "droid").2.1
      (assetsTarget "droid") = some "NEW" ∧
    ("✓ Copied to Android assets: " ++ assetsTarget "droid") ∈
      (copy_to_android_assets wOk
        { files := [("model.tflite", "NEW"), (assetsTarget "droid", "OLD")],
          dirs := [assetsSubdir "droid"] } "model.tflite" "droid").2.2.2 :=
  installer_overwrites_existing_target wOk
    { files := [("model.tflite", "NEW"), (assetsTarget "droid", "OLD")],
      dirs := [assetsSubdir "droid"] }
    "model.tflite" "droid" "NEW" "OLD" (by rfl) (by rfl) (by rfl)

end PlateOCR
